import Mathlib

/-!
Shallow embedding of the AiMenuChef backend handlers.

The repository contains several generations of the menu-suggestion
endpoint and one detail-recipe endpoint:
  * `src/api/generate.js` (first document): the "Canvas"-style
    `generateContent(request, response)` with a 3-attempt retry loop;
    `src/unnamed/part_000` repeats the same retry loop verbatim.
  * `src/api/generate.js` (second document): the Detail Recipe Handler
    (Vercel-style, CORS headers, OPTIONS preflight, single SDK call).
  * `src/opi/generate.js`: Vercel-style menu handler (key check first,
    single fetch, `{ menuData }` wrapping, `config` payload key).
  * `src/unnamed/part_001`: Vercel-style menu handler (method and input
    checks before the key check, switch on mode, `{ menuData }` wrapping).
  * `src/unnamed/part_002`: Vercel-style menu handler, same ordering as
    `opi` (key check first), `generationConfig` payload key.

JavaScript request-body fields are modelled by `JsVal` (absent /
string / number) with JS truthiness; JSON documents returned by the
external AI service by the inductive `Json`; the outcome of one upstream
call attempt (network error, non-2xx, missing text, unparseable text,
parsed success) by `AttemptOutcome`.  Handlers are functions from the
request (and, where the source reads it, the `GEMINI_API_KEY`
environment value) and the per-attempt upstream outcomes to a result
recording the HTTP status, the JSON body, the number of upstream calls
made, and the backoff delays inserted (in ms, in order).
-/

/-- A JSON document, as produced by `JSON.parse` on the model's text. -/
inductive Json where
  | null
  | bool (b : Bool)
  | num (n : Int)
  | str (s : String)
  | arr (xs : List Json)
  | obj (fields : List (String × Json))

/-- A JavaScript request-body field: absent (`undefined`), a string, or a
number (standing for any non-string truthy/falsy value). -/
inductive JsVal where
  | undef
  | str (s : String)
  | num (n : Int)
deriving DecidableEq, Repr

/-- JS truthiness of a body field (`undefined` and `""` and `0` are falsy). -/
def JsVal.truthy : JsVal → Bool
  | .undef => false
  | .str s => s ≠ ""
  | .num n => n ≠ 0

/-- `typeof v === 'string'`. -/
def JsVal.isStr : JsVal → Bool
  | .str _ => true
  | _ => false

/-- The text a template literal `${v}` interpolates for the value. -/
def JsVal.interp : JsVal → String
  | .undef => "undefined"
  | .str s => s
  | .num n => toString n

/-- Body of a POST to a menu-suggestion handler:
`const { ingredients, mode, allergens } = req.body`. -/
structure MenuBody where
  ingredients : JsVal
  mode : JsVal
  allergens : JsVal

/-- An inbound HTTP request to a menu-suggestion handler. -/
structure MenuReq where
  method : String
  body : MenuBody

/-- Outcome of one call attempt against the external AI service:
the fetch throws (`netError`), the response is non-2xx (`httpError`,
carrying the status and the stringified error detail), the response JSON
has no extractable `candidates[0].content.parts[0].text` (`noText`), the
extracted text fails `JSON.parse` (`badJson`), or the text parses to a
JSON value (`success`). -/
inductive AttemptOutcome where
  | netError (msg : String)
  | httpError (status : Nat) (detail : String)
  | noText
  | badJson (text : String)
  | success (v : Json)

/-- Whether the attempt produced a parsed JSON payload. -/
def AttemptOutcome.isSuccess : AttemptOutcome → Bool
  | .success _ => true
  | _ => false

/-- Result of a menu-suggestion handler run: HTTP status, JSON body,
number of upstream calls attempted, and the backoff delays inserted. -/
structure RunResult where
  status : Nat
  body : Json
  calls : Nat
  delays : List Nat

/-! ## Canvas-style generation (`src/api/generate.js` first document,
repeated in `src/unnamed/part_000`) -/

/-- The `modeDescription` object literal of the Canvas generation
(`src/api/generate.js` lines 30–34), indexed at the validated mode. -/
def canvasModeDescription (mode allergens : String) : String :=
  if mode = "normal" then
    "物価高対策と時短を重視し、安価で手軽にできる献立を最優先に考えてください。"
  else if mode = "healthy" then
    "健康と栄養バランスを重視し、低カロリーで高タンパクな食材や野菜を多く使う献立を提案してください。"
  else if mode = "allergy" then
    "アレルギーを持つ人が安心して食べられるよう、以下の食材・アレルゲンを完全に除去した献立を提案してください: " ++ allergens
  else
    "undefined"

/-- The `systemInstruction` text of the Canvas generation
(`src/api/generate.js` lines 36–54): a fixed template with
`${modeDescription[mode]}` interpolated in the middle. -/
def canvasSystemInstructionText (mode allergens : String) : String :=
  "\n                あなたはプロの献立アドバイザーです。\n                ユーザーが提供した食材と以下のモードに基づき、最適な献立を3種類提案してください。\n                \n                ---\n                献立の評価軸: "
    ++ canvasModeDescription mode allergens
    ++ "\n                ---\n\n                提案する3種類の献立レベルと要件は以下の通りです:\n                1. 究極のズボラ飯: 貧乏でも、手間も時間もかけず、超安価でできる献立。調理時間は10分以内。\n                2. 手軽・時短献立: 通常の、手軽に時短でできる献立。調理時間は20分以内。\n                3. ちょっと奮発献立: ちょっとだけ手間と食材を使った、満足度の高い献立。調理時間は30分以内。\n\n                献立は必ず以下のJSONスキーマに従い、日本語で回答してください。\n            "

/-- The `userQuery` text of the Canvas generation
(`src/api/generate.js` lines 56–61). -/
def canvasUserQuery (ingredients mode allergens : String) : String :=
  "\n        使用したい食材: " ++ ingredients ++ "\n        "
    ++ (if mode = "allergy" then "絶対に除去すべき食材: " ++ allergens else "")
    ++ "\n        \n        上記の要件と食材に基づき、3種類の献立レベル全てについて、それぞれ1つのレシピをJSON形式で提案してください。\n    "

/-- The error message the Canvas retry loop stores in `lastError` for a
failed attempt (`src/api/generate.js` lines 133–158): thrown fetch
errors keep their message, non-2xx responses throw
`API呼び出しエラー: status - detail`, a response without extractable text
and a JSON-parse failure set fixed messages. -/
def canvasAttemptError : AttemptOutcome → String
  | .netError m => m
  | .httpError status detail => "API呼び出しエラー: " ++ toString status ++ " - " ++ detail
  | .noText => "AIからの応答に有効な内容が含まれていません。"
  | .badJson text => "AI応答のJSONパースに失敗しました: " ++ text
  | .success _ => ""

/-- The status-500 body returned after the retry budget is exhausted
(`src/api/generate.js` line 169), embedding `lastError.message`. -/
def canvasFailureBody (lastErrorMsg : String) : Json :=
  .obj [("error", .str ("献立生成に失敗しました。AIからの有効な応答が得られませんでした。（" ++ lastErrorMsg ++ "）"))]

/-- The Canvas retry loop (`src/api/generate.js` lines 119–169).
`attempt` is the loop index, `fuel = maxRetries - attempt` the remaining
iterations, `lastError` the message of the last failed attempt (`null`
at entry).  On success the parsed value is returned with status 200;
after a failed attempt with `attempt < maxRetries - 1` (i.e. remaining
fuel after this iteration ≥ 1) a delay of `2^attempt * 1000` ms is
inserted; when the fuel runs out the 500 failure body is returned. -/
def canvasGo (outcomes : Nat → AttemptOutcome) :
    Nat → Nat → Option String → Nat → List Nat → RunResult
  | _, 0, lastError, calls, delays =>
      { status := 500, body := canvasFailureBody (lastError.getD "")
        calls := calls, delays := delays }
  | attempt, fuel + 1, _, calls, delays =>
      match outcomes attempt with
      | .success v => { status := 200, body := v, calls := calls + 1, delays := delays }
      | o =>
          if fuel = 0 then
            canvasGo outcomes (attempt + 1) fuel (some (canvasAttemptError o)) (calls + 1) delays
          else
            canvasGo outcomes (attempt + 1) fuel (some (canvasAttemptError o)) (calls + 1)
              (delays ++ [2 ^ attempt * 1000])

/-- The Canvas call step: `maxRetries = 3`, starting at attempt 0 with
`lastError = null` and no calls or delays yet. -/
def canvasCallStep (outcomes : Nat → AttemptOutcome) : RunResult :=
  canvasGo outcomes 0 3 none 0 []

/-- JavaScript `String.prototype.trim`: strip leading and trailing
whitespace (stated on the character list, so it evaluates). -/
def jsTrim (s : String) : String :=
  ⟨((s.data.dropWhile Char.isWhitespace).reverse.dropWhile Char.isWhitespace).reverse⟩

/-- The Canvas ingredients check (`src/api/generate.js` line 18):
`!ingredients || typeof ingredients !== 'string' || ingredients.trim() === ""`. -/
def canvasTextInvalid : JsVal → Bool
  | .str s => s = "" || jsTrim s = ""
  | _ => true

/-- `validModes.includes(mode)` of the Canvas generation (line 21–22). -/
def canvasModeValid (mode : JsVal) : Bool :=
  mode = JsVal.str "normal" || mode = JsVal.str "healthy" || mode = JsVal.str "allergy"

/-- The Canvas-style menu-suggestion handler
(`src/api/generate.js` lines 7–170): method check, input validation,
then the retry loop.  The request body's JSON payload to the AI service
is modelled separately by `canvasPayload`. -/
def canvasHandler (req : MenuReq) (outcomes : Nat → AttemptOutcome) : RunResult :=
  if req.method ≠ "POST" then
    { status := 405, body := .obj [("error", .str "Method Not Allowed")], calls := 0, delays := [] }
  else if canvasTextInvalid req.body.ingredients then
    { status := 400, body := .obj [("error", .str "食材 (ingredients) の入力は必須です。")]
      calls := 0, delays := [] }
  else if ¬ canvasModeValid req.body.mode then
    { status := 400, body := .obj [("error", .str "無効な献立モードです。")], calls := 0, delays := [] }
  else if req.body.mode = JsVal.str "allergy" && canvasTextInvalid req.body.allergens then
    { status := 400
      body := .obj [("error", .str "アレルギー除去モードでは、除去食材 (allergens) の入力は必須です。")]
      calls := 0, delays := [] }
  else
    canvasCallStep outcomes

/-! ## The payload sent to the external AI service (per generation) -/

/-- The parts of the Gemini request payload the claims are about: the two
prompt texts, whether the `google_search` grounding tool is attached, the
response MIME type and the sampling temperature of the generation
configuration (`none` when the generation sets no temperature). -/
structure GeminiPayload where
  userText : String
  systemText : String
  googleSearchTool : Bool
  responseMimeType : String
  temperature : Option ℚ
deriving DecidableEq

/-- The Canvas generation's payload (`src/api/generate.js` lines 104–116):
`tools: [{ google_search: {} }]` is attached and `generationConfig` holds
only `responseMimeType` and `responseSchema` — no temperature. -/
def canvasPayload (ingredients mode allergens : String) : GeminiPayload :=
  { userText := canvasUserQuery ingredients mode allergens
    systemText := canvasSystemInstructionText mode allergens
    googleSearchTool := true
    responseMimeType := "application/json"
    temperature := none }

/-! ## Vercel-style generation `src/opi/generate.js` -/

/-- Truthiness of an environment variable (`!GEMINI_API_KEY`). -/
def envTruthy : Option String → Bool
  | none => false
  | some s => s ≠ ""

/-- The fixed part of the opi generation's system instruction
(`src/opi/generate.js` lines 74–82). -/
def opiBaseInstruction : String :=
  "あなたは世界最高の献立AIシェフです。ユーザーから提供された食材、モード、制約条件に従い、以下の3つの異なる献立レベルの提案をJSON形式の配列で正確に生成してください。\n        \n        献立レベルは、必ず '無料シンプル操作', 'ちょっと凝ったもの', '課金レベル' の3つ全てを提案してください。\n        \n        - '無料シンプル操作': 5分から15分程度の超時短、最も簡単な調理工程で、冷蔵庫の残り物も使い切る現実的な献立を提案してください。\n        - 'ちょっと凝ったもの': 20分から30分程度の調理時間で、見た目や味に「ひと工夫」を加えた、家族やゲストも喜ぶ献立を提案してください。\n        - '課金レベル': 豪華さ、専門的な知識、栄養バランスの最適解など、高度な付加価値を持たせた特別で魅力的な献立を提案してください。\n\n        各献立の『調理のポイント』(`recipeSummary`)は、**HTMLの箇条書きタグ `<ul><li>...</li></ul>`** を使用して、具体的な手順と重要事項を記載してください。"

/-- The opi generation's system instruction (`src/opi/generate.js`
lines 74–87): the base text, plus the allergy constraint appended when
`mode === 'allergy' && allergens`. -/
def opiSystemInstruction (mode allergens : JsVal) : String :=
  opiBaseInstruction ++
    (if mode = JsVal.str "allergy" && allergens.truthy then
      "\n\n【最重要制約】提案するすべての献立は、ユーザーが指定したアレルゲン **" ++ allergens.interp
        ++ "** を含む食材や調味料を完全に排除しなければなりません。AIの提案が原因で健康被害が発生しないよう、細心の注意を払ってください。"
    else "")

/-- The opi generation's user prompt (`src/opi/generate.js` lines 90–94). -/
def opiUserPrompt (ingredients mode allergens : JsVal) : String :=
  "現在のモード: " ++ mode.interp ++ "\n使用したい食材: " ++ ingredients.interp ++ "\n"
    ++ (if mode = JsVal.str "allergy" && allergens.truthy then
          "除去すべきアレルゲン: " ++ allergens.interp
        else "")
    ++ "\n\n上記の条件に基づき、3つのレベルの献立提案をJSON形式でお願いします。"

/-- The opi generation's payload (`src/opi/generate.js` lines 97–106):
no `tools` entry; its `config` holds `responseMimeType`, `responseSchema`
and `temperature: 0.8`. -/
def opiPayload (ingredients mode allergens : JsVal) : GeminiPayload :=
  { userText := opiUserPrompt ingredients mode allergens
    systemText := opiSystemInstruction mode allergens
    googleSearchTool := false
    responseMimeType := "application/json"
    temperature := some (0.8 : ℚ) }

/-- The message of the error the opi generation's `catch` receives for a
failed call (`src/opi/generate.js` lines 117–131).  A non-2xx response
throws with the status and the first 100 characters of the error body; a
response without extractable text throws a fixed message.  A `JSON.parse`
failure throws the JS engine's own SyntaxError; that message is not a
string of the repository, so it is modelled by a fixed placeholder. -/
def opiCaughtMessage : AttemptOutcome → String
  | .netError m => m
  | .httpError status detail =>
      "Gemini API呼び出し中にエラーが発生しました: " ++ toString status ++ " - "
        ++ (detail.take 100) ++ "..."
  | .noText => "APIレスポンスからJSONテキストを抽出できませんでした。"
  | .badJson _ => "SyntaxError"
  | .success _ => ""

/-- The opi generation's handler (`src/opi/generate.js` lines 46–144):
missing-key check first, then the method check, then the ingredients
check, then one unretried call whose parsed payload is wrapped as
`{ menuData }`. -/
def opiHandler (apiKey : Option String) (req : MenuReq) (outcome : AttemptOutcome) : RunResult :=
  if ¬ envTruthy apiKey then
    { status := 500
      body := .obj [("error", .str "Internal Server Error"),
        ("message", .str "APIキーが設定されていません。Vercel環境変数に 'GEMINI_API_KEY' を設定してください。")]
      calls := 0, delays := [] }
  else if req.method ≠ "POST" then
    { status := 405
      body := .obj [("error", .str "Method Not Allowed"),
        ("message", .str "POSTリクエストのみを受け付けます。")]
      calls := 0, delays := [] }
  else if ¬ req.body.ingredients.truthy then
    { status := 400
      body := .obj [("error", .str "Bad Request"), ("message", .str "食材の入力が必要です。")]
      calls := 0, delays := [] }
  else
    match outcome with
    | .success v => { status := 200, body := .obj [("menuData", v)], calls := 1, delays := [] }
    | o =>
        { status := 500
          body := .obj [("error", .str "Internal Server Error"),
            ("message", .str ("献立生成処理中にエラーが発生しました: " ++ opiCaughtMessage o))]
          calls := 1, delays := [] }

/-! ## Vercel-style generation `src/unnamed/part_001` -/

/-- The fixed part of the part_001 generation's system instruction
(`src/unnamed/part_001` line 68). -/
def p1BaseInstruction : String :=
  "あなたは物価高を意識した献立提案のプロフェッショナルなシェフです。国民の手取りが上がらない現状を考慮し、提案するすべての献立は**最大限に安価な食材で、手間をかけずに作れること**を最優先してください。"

/-- The part_001 generation's system instruction after the `switch (mode)`
(`src/unnamed/part_001` lines 68–88): the healthy branch and the allergy
branch (with truthy allergens) append to the base text; every other mode
leaves it unchanged.  The allergy branch with falsy allergens returns 400
from the handler before this text is ever used. -/
def p1SystemInstruction (mode allergens : JsVal) : String :=
  if mode = JsVal.str "healthy" then
    p1BaseInstruction ++ "特に、提案する献立はカロリーと脂質を抑えたヘルシーな内容であることを強調してください。"
  else if mode = JsVal.str "allergy" && allergens.truthy then
    p1BaseInstruction ++ "提案する献立は、ユーザーが指定したアレルゲン（" ++ allergens.interp
      ++ "）を**絶対に使用しない**ことを保証してください。"
  else
    p1BaseInstruction

/-- The part_001 generation's `userConstraint` after the `switch (mode)`
(`src/unnamed/part_001` lines 67–88). -/
def p1UserConstraint (ingredients mode allergens : JsVal) : String :=
  "使いたい食材: " ++ ingredients.interp ++ "。"
    ++ (if mode = JsVal.str "normal" then "モード: 通常。"
        else if mode = JsVal.str "healthy" then
          "モード: ヘルシー（高タンパク、低脂質、低カロリーになるように考慮してください）。"
        else if mode = JsVal.str "allergy" && allergens.truthy then
          "モード: アレルギー除去。**これらの食材は絶対に使用しないでください: " ++ allergens.interp ++ "**。"
        else "モード: 通常。")

/-- The part_001 generation's user prompt (`src/unnamed/part_001`
lines 91–98). -/
def p1UserPrompt (ingredients mode allergens : JsVal) : String :=
  p1UserConstraint ingredients mode allergens
    ++ "\n\n以下の3つのレベルに沿った献立を、上から順番に提案してください。\n1. **究極のズボラ飯**: 貧乏でも、手間も時間もかけず、超安価でできる献立。\n2. **手軽・時短献立**: 通常の、手軽に時短でできる献立。\n3. **ちょっと奮発献立**: ちょっとだけ手間と食材を使った、満足度の高い献立。\n\n**作り方 (markdown_recipe) は、必ず番号付きリスト (1. 2. 3. ...) 形式のMarkdownで記述してください。**"

/-- The part_001 generation's payload (`src/unnamed/part_001`
lines 102–113): `tools: [{ google_search: {} }]` is attached and its
`generationConfig` holds `responseMimeType`, `responseSchema` and
`temperature: 0.8`. -/
def p1Payload (ingredients mode allergens : JsVal) : GeminiPayload :=
  { userText := p1UserPrompt ingredients mode allergens
    systemText := p1SystemInstruction mode allergens
    googleSearchTool := true
    responseMimeType := "application/json"
    temperature := some (0.8 : ℚ) }

/-- The message of the error the part_001 generation's `catch` receives
for a failed call (`src/unnamed/part_001` lines 124–139).  As in
`opiCaughtMessage`, the JS engine's own `JSON.parse` SyntaxError message
is not a string of the repository and is modelled by a placeholder. -/
def p1CaughtMessage : AttemptOutcome → String
  | .netError m => m
  | .httpError status detail =>
      "Gemini API呼び出し中にエラーが発生しました: " ++ toString status ++ " - "
        ++ (detail.take 100) ++ "..."
  | .noText => "APIレスポンスからJSONテキストを抽出できませんでした。"
  | .badJson _ => "SyntaxError"
  | .success _ => ""

/-- The part_001 generation's handler (`src/unnamed/part_001`
lines 46–149): method check first, then the `!ingredients || !mode`
check, then (inside the `try`) the missing-key check, then the allergy
branch's allergens check, then one unretried call whose parsed payload
is wrapped as `{ menuData }`. -/
def p1Handler (apiKey : Option String) (req : MenuReq) (outcome : AttemptOutcome) : RunResult :=
  if req.method ≠ "POST" then
    { status := 405, body := .str "Method Not Allowed", calls := 0, delays := [] }
  else if ¬ req.body.ingredients.truthy || ¬ req.body.mode.truthy then
    { status := 400, body := .obj [("error", .str "食材とモードは必須です。")]
      calls := 0, delays := [] }
  else if ¬ envTruthy apiKey then
    { status := 500, body := .obj [("error", .str "サーバー設定エラー: APIキーが設定されていません。")]
      calls := 0, delays := [] }
  else if req.body.mode = JsVal.str "allergy" && ¬ req.body.allergens.truthy then
    { status := 400, body := .obj [("error", .str "アレルギー除去モードでは、除去する食材の指定が必要です。")]
      calls := 0, delays := [] }
  else
    match outcome with
    | .success v => { status := 200, body := .obj [("menuData", v)], calls := 1, delays := [] }
    | o =>
        { status := 500
          body := .obj [("error", .str ("献立生成中にサーバーエラーが発生しました。詳細: " ++ p1CaughtMessage o))]
          calls := 1, delays := [] }

/-! ## Vercel-style generation `src/unnamed/part_002` -/

/-- The fixed part of the part_002 generation's system instruction
(`src/unnamed/part_002` lines 72–81). -/
def p2BaseInstruction : String :=
  "あなたは世界最高の献立AIシェフです。ユーザーから提供された食材、モード、制約条件に従い、以下の3つの異なる献立レベルの提案をJSON形式の配列で正確に生成してください。\n        \n        献立レベルは、必ず '究極のズボラ飯', 'お手軽・時短献立', 'ちょっとひと手間献立' の3つ全てを提案してください。\n        \n        - '究極のズボラ飯': お金がなくても5分以内の超時短、最も簡単調理工程で、冷蔵庫の残り物も使い切る現実的な献立を提案してください。\n        - 'お手軽・時短献立': 5分から15分程度の時短、簡単な調理工程で、冷蔵庫の残り物も使い切る現実的な献立を提案してください。\n        - 'ちょっとひと手間献立': 20分から30分程度の調理時間で、見た目や味に「ひと工夫」を加えた、家族やゲストも喜ぶ献立を提案してください。\n\n        各献立の『調理のポイント』(`recipeSummary`)は、**HTMLの箇条書きタグ `<ul><li>...</li></ul>`** を使用して、具体的な手順と重要事項を記載してください。\n        【重要】各献立は、必ず現代の物価高・手取りが上がっていないことを考慮した安価で、且つ栄養価の高い食材や調味料を使うようにしてください。"

/-- The part_002 generation's system instruction (`src/unnamed/part_002`
lines 72–86): the base text plus the allergy constraint appended when
`mode === 'allergy' && allergens`. -/
def p2SystemInstruction (mode allergens : JsVal) : String :=
  p2BaseInstruction ++
    (if mode = JsVal.str "allergy" && allergens.truthy then
      "\n\n【最重要制約】提案するすべての献立は、ユーザーが指定したアレルゲン **" ++ allergens.interp
        ++ "** を含む食材や調味料を完全に排除しなければなりません。AIの提案が原因で健康被害が発生しないよう、細心の注意を払ってください。"
    else "")

/-- The part_002 generation's user prompt (`src/unnamed/part_002`
lines 89–93), textually the same template as the opi generation's. -/
def p2UserPrompt (ingredients mode allergens : JsVal) : String :=
  "現在のモード: " ++ mode.interp ++ "\n使用したい食材: " ++ ingredients.interp ++ "\n"
    ++ (if mode = JsVal.str "allergy" && allergens.truthy then
          "除去すべきアレルゲン: " ++ allergens.interp
        else "")
    ++ "\n\n上記の条件に基づき、3つのレベルの献立提案をJSON形式でお願いします。"

/-- The part_002 generation's payload (`src/unnamed/part_002`
lines 96–106): no `tools` entry; its `generationConfig` holds
`responseMimeType`, `responseSchema` and `temperature: 0.8`. -/
def p2Payload (ingredients mode allergens : JsVal) : GeminiPayload :=
  { userText := p2UserPrompt ingredients mode allergens
    systemText := p2SystemInstruction mode allergens
    googleSearchTool := false
    responseMimeType := "application/json"
    temperature := some (0.8 : ℚ) }

/-- The part_002 generation's handler (`src/unnamed/part_002`
lines 44–144): identical control flow to the opi generation's handler
(missing-key check, method check, ingredients check, one unretried call
wrapped as `{ menuData }`), with its own prompt texts. -/
def p2Handler (apiKey : Option String) (req : MenuReq) (outcome : AttemptOutcome) : RunResult :=
  if ¬ envTruthy apiKey then
    { status := 500
      body := .obj [("error", .str "Internal Server Error"),
        ("message", .str "APIキーが設定されていません。Vercel環境変数に 'GEMINI_API_KEY' を設定してください。")]
      calls := 0, delays := [] }
  else if req.method ≠ "POST" then
    { status := 405
      body := .obj [("error", .str "Method Not Allowed"),
        ("message", .str "POSTリクエストのみを受け付けます。")]
      calls := 0, delays := [] }
  else if ¬ req.body.ingredients.truthy then
    { status := 400
      body := .obj [("error", .str "Bad Request"), ("message", .str "食材の入力が必要です。")]
      calls := 0, delays := [] }
  else
    match outcome with
    | .success v => { status := 200, body := .obj [("menuData", v)], calls := 1, delays := [] }
    | o =>
        { status := 500
          body := .obj [("error", .str "Internal Server Error"),
            ("message", .str ("献立生成処理中にエラーが発生しました: " ++ opiCaughtMessage o))]
          calls := 1, delays := [] }

/-! ## Detail Recipe Handler (`src/api/generate.js` second document,
lines 184–269) -/

/-- Body of a POST to the Detail Recipe Handler:
`const { dishName, ingredients, mode } = req.body`. -/
structure DetailBody where
  dishName : JsVal
  ingredients : JsVal
  mode : JsVal

/-- An inbound HTTP request to the Detail Recipe Handler. -/
structure DetailReq where
  method : String
  body : DetailBody

/-- Result of a Detail Recipe Handler run: status, body (`none` for
`res.end()`), response headers, and upstream calls attempted. -/
structure DetailResult where
  status : Nat
  body : Option Json
  headers : List (String × String)
  calls : Nat

/-- The three CORS headers the Detail Recipe Handler sets on every
response (`src/api/generate.js` lines 186–188). -/
def corsHeaders : List (String × String) :=
  [("Access-Control-Allow-Origin", "*"),
   ("Access-Control-Allow-Methods", "POST, OPTIONS"),
   ("Access-Control-Allow-Headers", "Content-Type")]

/-- The Detail Recipe Handler's mode-label lookup
(`src/api/generate.js` lines 206–211): an object literal with keys
`normal`, `health` and `allergy`, indexed at `mode` with fallback
`|| '一般的な献立'` for any other (or absent, or non-string) value. -/
def detailModeDescription : JsVal → String
  | .str "normal" => "通常の献立"
  | .str "health" => "低カロリー・高タンパクなヘルシー献立"
  | .str "allergy" => "特定食材を除去した献立"
  | _ => "一般的な献立"

/-- The Detail Recipe Handler's system prompt
(`src/api/generate.js` lines 235–242), interpolating the dish name, the
mode label and the ingredients. -/
def detailSystemPrompt (dishName ingredients mode : JsVal) : String :=
  "\n            あなたは献立名：「" ++ dishName.interp
    ++ "」の詳細レシピを作成するプロの料理研究家です。\n            以下の制約に従って、詳細なレシピを日本語でJSON形式で生成してください。\n            1. 分量は「2人分」を基準として具体的なグラム数や大さじなどで記載してください。\n            2. 調理手順(instructions)は、分かりやすく具体的なステップをリスト形式で作成し、各ステップは一つずつ独立させてください。\n            3. この献立は「"
    ++ detailModeDescription mode ++ "」のコンセプトと、食材「" ++ ingredients.interp
    ++ "」を使用することを考慮してください。\n            4. 物価高を考慮し、安価な食材や節約調理法を優先的に提案してください。\n        "

/-- The message of the error the Detail Recipe Handler's `catch` receives
(`src/api/generate.js` lines 262–268).  The call goes through the
`GoogleGenAI` SDK, whose thrown error messages are not strings of the
repository; they are modelled by the failure constructors' payloads or
fixed placeholders. -/
def detailCaughtMessage : AttemptOutcome → String
  | .netError m => m
  | .httpError status detail => toString status ++ " " ++ detail
  | .noText => "Cannot read text"
  | .badJson _ => "SyntaxError"
  | .success _ => ""

/-- The Detail Recipe Handler (`src/api/generate.js` lines 184–269):
CORS headers on every response, `OPTIONS` answered immediately with
status 200 and an empty body, non-POST rejected with 405, missing
`dishName` or `ingredients` rejected with 400, then one unretried SDK
call whose parsed payload is wrapped as `{ detailRecipe }`; any failure
of the call is caught and surfaced as a 500. -/
def detailHandler (req : DetailReq) (outcome : AttemptOutcome) : DetailResult :=
  if req.method = "OPTIONS" then
    { status := 200, body := none, headers := corsHeaders, calls := 0 }
  else if req.method ≠ "POST" then
    { status := 405, body := some (.obj [("message", .str "Method Not Allowed")])
      headers := corsHeaders, calls := 0 }
  else if ¬ req.body.dishName.truthy || ¬ req.body.ingredients.truthy then
    { status := 400, body := some (.obj [("message", .str "献立名と主要食材が必要です。")])
      headers := corsHeaders, calls := 0 }
  else
    match outcome with
    | .success v =>
        { status := 200, body := some (.obj [("detailRecipe", v)])
          headers := corsHeaders, calls := 1 }
    | o =>
        { status := 500
          body := some (.obj [
            ("message", .str ("詳細レシピ生成エラー: Internal Server Error. " ++ detailCaughtMessage o)),
            ("error", .str (detailCaughtMessage o))])
          headers := corsHeaders, calls := 1 }

/-! ## Menu-schema predicates (for the round-trip claim)

The handlers do not themselves check the parsed payload against the
response schema (the schema is sent to the model as output constraint);
these predicates transcribe the schemas' required fields so the
round-trip claim can be stated for schema-conformant payloads. -/

/-- Field lookup on a JSON object. -/
def Json.lookupField : Json → String → Option Json
  | .obj fs, k => fs.lookup k
  | _, _ => none

/-- The field is present and a non-empty string. -/
def isFilledStr : Option Json → Bool
  | some (.str s) => s ≠ ""
  | _ => false

/-- The field is present and an array of strings. -/
def isStrArray : Option Json → Bool
  | some (.arr xs) => xs.all fun j => match j with | .str _ => true | _ => false
  | _ => false

/-- One item of the opi/part_001/part_002 menu schema with the fields of
`src/opi/generate.js` lines 14–39 (`level`, `dishName`, `description`,
`recipeSummary`) populated. -/
def vercelMenuItemOk (j : Json) : Bool :=
  isFilledStr (j.lookupField "level") && isFilledStr (j.lookupField "dishName")
    && isFilledStr (j.lookupField "description") && isFilledStr (j.lookupField "recipeSummary")

/-- A payload matching the opi menu schema: a bare array of 3 items, all
required fields populated. -/
def vercelMenuOk : Json → Bool
  | .arr xs => xs.length = 3 && xs.all vercelMenuItemOk
  | _ => false

/-- One item of the Canvas menu schema
(`src/api/generate.js` lines 65–101): required string fields `level`,
`dishName`, `description`, `markdown_recipe` populated and `ingredients`
an array of strings. -/
def canvasMenuItemOk (j : Json) : Bool :=
  isFilledStr (j.lookupField "level") && isFilledStr (j.lookupField "dishName")
    && isFilledStr (j.lookupField "description") && isStrArray (j.lookupField "ingredients")
    && isFilledStr (j.lookupField "markdown_recipe")

/-- A payload matching the Canvas menu schema: an object whose `recipes`
property is an array of 3 items, all required fields populated. -/
def canvasMenuOk (j : Json) : Bool :=
  match j.lookupField "recipes" with
  | some (.arr xs) => xs.length = 3 && xs.all canvasMenuItemOk
  | _ => false

/-! ## String helpers -/

/-- Concatenation of strings is associative. -/
theorem strAppendAssoc (a b c : String) : a ++ b ++ c = a ++ (b ++ c) := by
  apply String.ext
  simp [String.data_append, List.append_assoc]

/-- `needle` occurs verbatim as a substring of `hay`, stated as an
explicit split. -/
def appearsIn (needle hay : String) : Prop :=
  ∃ p q, hay = p ++ needle ++ q

/-- A string appears in itself. -/
theorem appearsIn_refl (mid : String) : appearsIn mid mid := by
  refine ⟨"", "", ?_⟩
  apply String.ext
  simp [String.data_append]

/-- Appearing in the right part of a concatenation. -/
theorem appearsIn_append_left (mid a b : String) (h : appearsIn mid b) :
    appearsIn mid (a ++ b) := by
  obtain ⟨p, q, rfl⟩ := h
  refine ⟨a ++ p, q, ?_⟩
  rw [strAppendAssoc (a ++ p) mid q, strAppendAssoc a p (mid ++ q), ← strAppendAssoc p mid q]

/-- Appearing in the left part of a concatenation. -/
theorem appearsIn_append_right (mid a b : String) (h : appearsIn mid a) :
    appearsIn mid (a ++ b) := by
  obtain ⟨p, q, rfl⟩ := h
  exact ⟨p, q ++ b, by rw [strAppendAssoc (p ++ mid) q b]⟩

/-! ## Claim theorems -/

/-- Claim C7, as written, is false: the Canvas generation's
`generationConfig` (`src/api/generate.js` lines 112–116) holds only the
response MIME type and schema, and sets no temperature.  Concretely, the
payload built for a valid normal-mode request with ingredients 豚肉 has
`temperature = none`, not `0.8`. -/
theorem canvas_payload_no_temperature_counterexample :
    (canvasPayload "豚肉" "normal" "undefined").temperature ≠ some (0.8 : ℚ) := by
  decide

/-- Claim C7 (amended): the three Vercel-style generations (opi,
part_001, part_002) set a sampling temperature of 0.8 in their
generation configuration for every request, while the Canvas
generation's `generationConfig` sets no temperature at all. -/
theorem menu_payload_temperature (i m a : JsVal) (ic mc ac : String) :
    (opiPayload i m a).temperature = some (0.8 : ℚ)
    ∧ (p1Payload i m a).temperature = some (0.8 : ℚ)
    ∧ (p2Payload i m a).temperature = some (0.8 : ℚ)
    ∧ (canvasPayload ic mc ac).temperature = none := by
  exact ⟨rfl, rfl, rfl, rfl⟩

/-- Claim C8: an OPTIONS request to the Detail Recipe Handler is answered
with status 200, an empty body, the three permissive CORS headers, and no
call to the external AI service — whatever the body and whatever the
upstream would have answered. -/
theorem detail_options_preflight (b : DetailBody) (o : AttemptOutcome) :
    detailHandler ⟨"OPTIONS", b⟩ o =
      ⟨200, none,
        [("Access-Control-Allow-Origin", "*"),
         ("Access-Control-Allow-Methods", "POST, OPTIONS"),
         ("Access-Control-Allow-Headers", "Content-Type")], 0⟩ := by
  rfl

/-- Claim C9: the Detail Recipe Handler's mode-label map has keys
`normal`, `health` and `allergy` — not `healthy` — so `healthy` (a value
the menu endpoint accepts) and every other unrecognized or absent mode
value fall back to the generic 一般的な献立 phrase (the lookup is total,
so no mode value errors), and the system prompt built for mode `healthy`
is framed with that generic phrase. -/
theorem detail_mode_label_map (m : JsVal)
    (h1 : m ≠ JsVal.str "normal") (h2 : m ≠ JsVal.str "health")
    (h3 : m ≠ JsVal.str "allergy") :
    detailModeDescription m = "一般的な献立"
    ∧ detailModeDescription (JsVal.str "healthy") = "一般的な献立"
    ∧ detailModeDescription (JsVal.str "normal") = "通常の献立"
    ∧ detailModeDescription (JsVal.str "health") = "低カロリー・高タンパクなヘルシー献立"
    ∧ detailModeDescription (JsVal.str "allergy") = "特定食材を除去した献立"
    ∧ (∀ d i, appearsIn "一般的な献立" (detailSystemPrompt d i (JsVal.str "healthy"))) := by
  refine ⟨?_, rfl, rfl, rfl, rfl, ?_⟩
  · unfold detailModeDescription
    split
    · exact absurd rfl h1
    · exact absurd rfl h2
    · exact absurd rfl h3
    · rfl
  · intro d i
    show appearsIn "一般的な献立" (_ ++ _ ++ _ ++ "一般的な献立" ++ _ ++ _ ++ _)
    exact appearsIn_append_right _ _ _ (appearsIn_append_right _ _ _
      (appearsIn_append_right _ _ _ (appearsIn_append_left _ _ _ (appearsIn_refl _))))

/-- Concrete instance of the hypotheses of `detail_mode_label_map`:
mode `healthy` is none of the map's three keys, and the generic phrase
results. -/
theorem detail_mode_label_map_witness :
    detailModeDescription (JsVal.str "healthy") = "一般的な献立" :=
  (detail_mode_label_map (JsVal.str "healthy") (by decide) (by decide) (by decide)).1

/-- Claim C5: for mode `allergy` with a non-empty allergens string, the
system-instruction text of every generation of the menu-suggestion
handler (Canvas, opi, part_001, part_002) contains the caller's
allergens string verbatim as a substring. -/
theorem allergens_in_system_instruction (a : String) (ha : a ≠ "") :
    appearsIn a (canvasSystemInstructionText "allergy" a)
    ∧ appearsIn a (opiSystemInstruction (JsVal.str "allergy") (JsVal.str a))
    ∧ appearsIn a (p1SystemInstruction (JsVal.str "allergy") (JsVal.str a))
    ∧ appearsIn a (p2SystemInstruction (JsVal.str "allergy") (JsVal.str a)) := by
  have hmd : canvasModeDescription "allergy" a =
      "アレルギーを持つ人が安心して食べられるよう、以下の食材・アレルゲンを完全に除去した献立を提案してください: " ++ a := by
    simp [canvasModeDescription]
  refine ⟨?_, ?_, ?_, ?_⟩
  · unfold canvasSystemInstructionText
    rw [hmd]
    exact appearsIn_append_right _ _ _ (appearsIn_append_left _ _ _
      (appearsIn_append_left _ _ _ (appearsIn_refl _)))
  · unfold opiSystemInstruction
    simp only [JsVal.truthy, JsVal.interp, ha, decide_True, ne_eq, not_false_iff,
      decide_not, Bool.and_self, if_true, decide_eq_true_eq]
    exact appearsIn_append_left _ _ _ (appearsIn_append_right _ _ _
      (appearsIn_append_left _ _ _ (appearsIn_refl _)))
  · unfold p1SystemInstruction
    rw [if_neg (by decide), if_pos (by simp [JsVal.truthy, ha])]
    simp only [JsVal.interp]
    exact appearsIn_append_right _ _ _ (appearsIn_append_left _ _ _ (appearsIn_refl _))
  · unfold p2SystemInstruction
    rw [if_pos (by simp [JsVal.truthy, ha])]
    simp only [JsVal.interp]
    exact appearsIn_append_left _ _ _ (appearsIn_append_right _ _ _
      (appearsIn_append_left _ _ _ (appearsIn_refl _)))

/-- Concrete instance of `allergens_in_system_instruction` at the
allergens string 卵・乳. -/
theorem allergens_in_system_instruction_witness :
    ("卵・乳" : String) ≠ ""
    ∧ appearsIn "卵・乳" (canvasSystemInstructionText "allergy" "卵・乳")
    ∧ appearsIn "卵・乳" (opiSystemInstruction (JsVal.str "allergy") (JsVal.str "卵・乳"))
    ∧ appearsIn "卵・乳" (p1SystemInstruction (JsVal.str "allergy") (JsVal.str "卵・乳"))
    ∧ appearsIn "卵・乳" (p2SystemInstruction (JsVal.str "allergy") (JsVal.str "卵・乳")) :=
  ⟨by decide, allergens_in_system_instruction "卵・乳" (by decide)⟩

/-- Claim C1: the Canvas-style retry: at most 3 upstream attempts; a
success at attempt 0 returns 200 with the parsed payload after 1 call
and no delay; a failure at attempt 0 followed by a success at attempt 1
returns 200 after exactly 2 calls with the single 1000 ms backoff; a
success at attempt 2 returns 200 after 3 calls with backoffs 1000 ms and
2000 ms (`2^attempt × 1000` after failed attempts 0 and 1); and when all
3 attempts fail, the handler returns 500 with the body embedding the
last observed error's message, after 3 calls and no delay following the
final attempt (delays stay [1000, 2000]). -/
theorem canvas_retry_policy (outcomes : Nat → AttemptOutcome) :
    (canvasCallStep outcomes).calls ≤ 3
    ∧ (∀ v, outcomes 0 = .success v →
        canvasCallStep outcomes = ⟨200, v, 1, []⟩)
    ∧ (∀ v, (outcomes 0).isSuccess = false → outcomes 1 = .success v →
        canvasCallStep outcomes = ⟨200, v, 2, [1000]⟩)
    ∧ (∀ v, (outcomes 0).isSuccess = false → (outcomes 1).isSuccess = false →
        outcomes 2 = .success v →
        canvasCallStep outcomes = ⟨200, v, 3, [1000, 2000]⟩)
    ∧ ((outcomes 0).isSuccess = false → (outcomes 1).isSuccess = false →
        (outcomes 2).isSuccess = false →
        canvasCallStep outcomes =
          ⟨500, canvasFailureBody (canvasAttemptError (outcomes 2)), 3, [1000, 2000]⟩) := by
  refine ⟨?_, ?_, ?_, ?_, ?_⟩
  · cases h0 : outcomes 0 <;> cases h1 : outcomes 1 <;> cases h2 : outcomes 2 <;>
      simp [canvasCallStep, canvasGo, h0, h1, h2]
  · intro v h0
    simp [canvasCallStep, canvasGo, h0]
  · intro v h0 h1
    cases ho : outcomes 0 <;> rw [ho] at h0 <;> simp [AttemptOutcome.isSuccess] at h0 <;>
      simp [canvasCallStep, canvasGo, ho, h1]
  · intro v h0 h1 h2
    cases ho : outcomes 0 <;> rw [ho] at h0 <;> simp [AttemptOutcome.isSuccess] at h0 <;>
      cases ho1 : outcomes 1 <;> rw [ho1] at h1 <;> simp [AttemptOutcome.isSuccess] at h1 <;>
      simp [canvasCallStep, canvasGo, ho, ho1, h2]
  · intro h0 h1 h2
    cases ho : outcomes 0 <;> rw [ho] at h0 <;> simp [AttemptOutcome.isSuccess] at h0 <;>
      cases ho1 : outcomes 1 <;> rw [ho1] at h1 <;> simp [AttemptOutcome.isSuccess] at h1 <;>
      cases ho2 : outcomes 2 <;> rw [ho2] at h2 <;> simp [AttemptOutcome.isSuccess] at h2 <;>
      simp [canvasCallStep, canvasGo, ho, ho1, ho2]

/-- Upstream simulation that fails once (non-2xx) and then succeeds. -/
def failOnceOutcomes : Nat → AttemptOutcome
  | 0 => .httpError 503 "overloaded"
  | _ => .success (Json.str "ok")

/-- Concrete instance of `canvas_retry_policy`: with an upstream that
fails once then succeeds, the retry-enabled handler's call step returns
status 200 with the successful payload after exactly 2 calls and one
1000 ms backoff. -/
theorem canvas_retry_policy_witness :
    canvasCallStep failOnceOutcomes = ⟨200, Json.str "ok", 2, [1000]⟩ :=
  (canvas_retry_policy failOnceOutcomes).2.2.1 (Json.str "ok") rfl rfl

/-- A Canvas-valid ingredients/allergens field is a JS-truthy value. -/
theorem truthy_of_canvasTextValid (v : JsVal) (h : canvasTextInvalid v = false) :
    v.truthy = true := by
  cases v with
  | undef => simp [canvasTextInvalid] at h
  | num n => simp [canvasTextInvalid] at h
  | str s =>
      simp [canvasTextInvalid] at h
      simp [JsVal.truthy, h.1]

/-- A mode the Canvas generation accepts is a JS-truthy value. -/
theorem truthy_of_canvasModeValid (v : JsVal) (h : canvasModeValid v = true) :
    v.truthy = true := by
  simp [canvasModeValid] at h
  rcases h with (h | h) | h <;> subst h <;> decide

/-- Claim C6 (round-trip): when the upstream's extracted text parses to a
payload matching the generation's menu schema (3 items, all required
fields populated), a valid request is answered with status 200 and the
parsed items unmodified apart from the wrapping convention: the Canvas
generation returns the parsed value bare, and the Vercel generations
(opi, part_001, part_002) wrap it as `{ menuData: ... }`; exactly one
upstream call is made. -/
theorem menu_round_trip (v w : Json) (req : MenuReq) (key : Option String)
    (outcomes : Nat → AttemptOutcome)
    (hm : req.method = "POST")
    (hi : canvasTextInvalid req.body.ingredients = false)
    (hmo : canvasModeValid req.body.mode = true)
    (hal : (req.body.mode = JsVal.str "allergy" && canvasTextInvalid req.body.allergens) = false)
    (hkey : envTruthy key = true)
    (h0 : outcomes 0 = .success v)
    (hcv : canvasMenuOk v = true)
    (hvv : vercelMenuOk w = true) :
    canvasHandler req outcomes = ⟨200, v, 1, []⟩
    ∧ opiHandler key req (.success w) = ⟨200, .obj [("menuData", w)], 1, []⟩
    ∧ p1Handler key req (.success w) = ⟨200, .obj [("menuData", w)], 1, []⟩
    ∧ p2Handler key req (.success w) = ⟨200, .obj [("menuData", w)], 1, []⟩ := by
  obtain ⟨method, i, m, a⟩ := req
  simp only at hm hi hmo hal
  subst hm
  have hit : i.truthy = true := truthy_of_canvasTextValid i hi
  have hmt : m.truthy = true := truthy_of_canvasModeValid m hmo
  have hp1a : (m = JsVal.str "allergy" && ¬ a.truthy) = false := by
    by_cases hma : m = JsVal.str "allergy"
    · rw [hma] at hal ⊢
      simp only [decide_True, Bool.true_and] at hal ⊢
      simp [truthy_of_canvasTextValid a hal]
    · simp [hma]
  refine ⟨?_, ?_, ?_, ?_⟩
  · simp [canvasHandler, hi, hmo, hal, canvasCallStep, canvasGo, h0]
  · simp [opiHandler, hkey, hit]
  · simp only [p1Handler]
    rw [if_neg (by simp), if_neg (by simp [hit, hmt]), if_neg (by simp [hkey]),
      if_neg (by simp [hp1a] at hp1a ⊢; exact hp1a)]
  · simp [p2Handler, hkey, hit]

/-- A concrete payload matching the Canvas menu schema: `recipes` with 3
items, all required fields populated. -/
def canvasMenuPayload : Json :=
  .obj [("recipes", .arr [
    .obj [("level", .str "究極のズボラ飯"), ("dishName", .str "卵かけごはん"),
      ("description", .str "超安価"), ("ingredients", .arr [.str "卵", .str "ごはん"]),
      ("markdown_recipe", .str "1. 混ぜる")],
    .obj [("level", .str "手軽・時短献立"), ("dishName", .str "豚丼"),
      ("description", .str "時短"), ("ingredients", .arr [.str "豚肉", .str "玉ねぎ"]),
      ("markdown_recipe", .str "1. 炒める 2. 盛る")],
    .obj [("level", .str "ちょっと奮発献立"), ("dishName", .str "すき焼き"),
      ("description", .str "満足度が高い"), ("ingredients", .arr [.str "牛肉", .str "豆腐"]),
      ("markdown_recipe", .str "1. 煮る 2. 味付け 3. 盛る")]])]

/-- A concrete payload matching the Vercel menu schema: a bare array of
3 items, all required fields populated. -/
def vercelMenuPayload : Json :=
  .arr [
    .obj [("level", .str "無料シンプル操作"), ("dishName", .str "卵かけごはん"),
      ("description", .str "超時短"), ("recipeSummary", .str "<ul><li>混ぜる</li></ul>")],
    .obj [("level", .str "ちょっと凝ったもの"), ("dishName", .str "豚丼"),
      ("description", .str "ひと工夫"), ("recipeSummary", .str "<ul><li>炒める</li></ul>")],
    .obj [("level", .str "課金レベル"), ("dishName", .str "すき焼き"),
      ("description", .str "豪華"), ("recipeSummary", .str "<ul><li>煮る</li></ul>")]]

/-- Concrete instance of `menu_round_trip`: both payloads pass their
schema checks and the concrete valid request is answered with 200 and the
payload in the generation's wrapping (bare for Canvas, `{ menuData }`
for opi). -/
theorem menu_round_trip_witness :
    canvasMenuOk canvasMenuPayload = true
    ∧ vercelMenuOk vercelMenuPayload = true
    ∧ canvasHandler ⟨"POST", ⟨.str "豚肉と玉ねぎ", .str "normal", .undef⟩⟩
        (fun _ => .success canvasMenuPayload) = ⟨200, canvasMenuPayload, 1, []⟩
    ∧ opiHandler (some "key123") ⟨"POST", ⟨.str "豚肉と玉ねぎ", .str "normal", .undef⟩⟩
        (.success vercelMenuPayload) = ⟨200, .obj [("menuData", vercelMenuPayload)], 1, []⟩ := by
  have h := menu_round_trip canvasMenuPayload vercelMenuPayload
    ⟨"POST", ⟨.str "豚肉と玉ねぎ", .str "normal", .undef⟩⟩ (some "key123")
    (fun _ => .success canvasMenuPayload) rfl (by decide) (by decide) (by decide)
    (by decide) rfl (by decide) (by decide)
  exact ⟨by decide, by decide, h.1, h.2.1⟩

/-- A falsy body field fails the Canvas text check. -/
theorem canvasTextInvalid_of_falsy (v : JsVal) (h : v.truthy = false) :
    canvasTextInvalid v = true := by
  cases v with
  | undef => rfl
  | num n => rfl
  | str s =>
      simp [JsVal.truthy] at h
      simp [canvasTextInvalid, h]

/-- Claim C2, as written, is false on the part_001 generation: that
handler checks the method and the ingredients/mode presence before the
credential, so with `GEMINI_API_KEY` absent a GET request is answered
405, not 500. -/
theorem p1_missing_key_counterexample :
    (p1Handler none ⟨"GET", ⟨.str "豚肉", .str "normal", .undef⟩⟩ .noText).status = 405
    ∧ (p1Handler none ⟨"GET", ⟨.str "豚肉", .str "normal", .undef⟩⟩ .noText).status ≠ 500 := by
  decide

/-- Claim C2 (amended): no generation that reads `GEMINI_API_KEY` ever
attempts a network call when the credential is absent.  The opi and
part_002 generations check the credential first and answer 500 to every
inbound request; the part_001 generation checks it only after the method
and ingredients/mode checks, so there a non-POST request gets 405 and a
request with falsy ingredients or mode gets 400, while every request
passing those checks gets 500. -/
theorem menu_missing_key_short_circuit (key : Option String) (req : MenuReq)
    (o : AttemptOutcome) (hk : envTruthy key = false) :
    (opiHandler key req o).status = 500
    ∧ (opiHandler key req o).calls = 0
    ∧ (p2Handler key req o).status = 500
    ∧ (p2Handler key req o).calls = 0
    ∧ (p1Handler key req o).calls = 0
    ∧ (req.method = "POST" → req.body.ingredients.truthy = true →
        req.body.mode.truthy = true → (p1Handler key req o).status = 500) := by
  refine ⟨?_, ?_, ?_, ?_, ?_, ?_⟩
  · simp [opiHandler, hk]
  · simp [opiHandler, hk]
  · simp [p2Handler, hk]
  · simp [p2Handler, hk]
  · unfold p1Handler
    split
    · rfl
    · split
      · rfl
      · rw [if_pos (by simp [hk])]
  · intro hm hi hmo
    simp [p1Handler, hm, hi, hmo, hk]

/-- Concrete instance of `menu_missing_key_short_circuit`: with the key
absent, a valid POST gets 500 from the opi generation with no call, and
from the part_001 generation with no call. -/
theorem menu_missing_key_short_circuit_witness :
    (opiHandler none ⟨"POST", ⟨.str "豚肉", .str "normal", .undef⟩⟩ .noText).status = 500
    ∧ (p1Handler none ⟨"POST", ⟨.str "豚肉", .str "normal", .undef⟩⟩ .noText).calls = 0
    ∧ (p1Handler none ⟨"POST", ⟨.str "豚肉", .str "normal", .undef⟩⟩ .noText).status = 500 := by
  have h := menu_missing_key_short_circuit none
    ⟨"POST", ⟨.str "豚肉", .str "normal", .undef⟩⟩ .noText rfl
  exact ⟨h.1, h.2.2.2.2.1, h.2.2.2.2.2 rfl (by decide) (by decide)⟩

/-- Claim C4, as written, is false on the opi generation: its
missing-credential check comes before the method check, so with
`GEMINI_API_KEY` absent a GET request is answered 500, not 405. -/
theorem opi_non_post_counterexample :
    (opiHandler none ⟨"GET", ⟨.str "豚肉", .str "normal", .undef⟩⟩ .noText).status = 500
    ∧ (opiHandler none ⟨"GET", ⟨.str "豚肉", .str "normal", .undef⟩⟩ .noText).status ≠ 405 := by
  decide

/-- Claim C4 (amended): a non-POST request is answered 405 by the Canvas
and part_001 generations regardless of any other condition, and by the
opi and part_002 generations whenever `GEMINI_API_KEY` is present; when
the credential is absent those two generations answer 500 even to a
non-POST request. -/
theorem menu_non_post_405 (req : MenuReq) (key : Option String)
    (o : AttemptOutcome) (outcomes : Nat → AttemptOutcome)
    (hm : req.method ≠ "POST") :
    (canvasHandler req outcomes).status = 405
    ∧ (canvasHandler req outcomes).calls = 0
    ∧ (p1Handler key req o).status = 405
    ∧ (p1Handler key req o).calls = 0
    ∧ (envTruthy key = true →
        (opiHandler key req o).status = 405 ∧ (opiHandler key req o).calls = 0)
    ∧ (envTruthy key = true →
        (p2Handler key req o).status = 405 ∧ (p2Handler key req o).calls = 0)
    ∧ (envTruthy key = false → (opiHandler key req o).status = 500)
    ∧ (envTruthy key = false → (p2Handler key req o).status = 500) := by
  refine ⟨?_, ?_, ?_, ?_, fun hk => ⟨?_, ?_⟩, fun hk => ⟨?_, ?_⟩, fun hk => ?_, fun hk => ?_⟩
    <;> simp [canvasHandler, p1Handler, opiHandler, p2Handler, hm]
    <;> simp [*]

/-- Concrete instance of `menu_non_post_405`: a GET request is answered
405 by the Canvas generation and, with the key present, by the opi
generation, with no upstream call. -/
theorem menu_non_post_405_witness :
    (canvasHandler ⟨"GET", ⟨.str "豚肉", .str "normal", .undef⟩⟩ (fun _ => .noText)).status = 405
    ∧ (opiHandler (some "key123") ⟨"GET", ⟨.str "豚肉", .str "normal", .undef⟩⟩ .noText).status = 405
    ∧ (opiHandler (some "key123") ⟨"GET", ⟨.str "豚肉", .str "normal", .undef⟩⟩ .noText).calls = 0 := by
  have h := menu_non_post_405 ⟨"GET", ⟨.str "豚肉", .str "normal", .undef⟩⟩
    (some "key123") .noText (fun _ => .noText) (by decide)
  exact ⟨h.1, (h.2.2.2.2.1 rfl).1, (h.2.2.2.2.1 rfl).2⟩

/-- Claim C3, as written, is false on the opi generation: it performs no
allergy-mode allergens validation.  Concretely, a POST with valid
ingredients, mode `allergy` and absent allergens is not answered 400:
the handler proceeds to the external call (here simulated as succeeding)
and returns 200 after 1 upstream call. -/
theorem opi_allergy_no_allergens_counterexample :
    (opiHandler (some "key123") ⟨"POST", ⟨.str "卵", .str "allergy", .undef⟩⟩
      (.success (Json.arr []))).status = 200
    ∧ (opiHandler (some "key123") ⟨"POST", ⟨.str "卵", .str "allergy", .undef⟩⟩
        (.success (Json.arr []))).status ≠ 400
    ∧ (opiHandler (some "key123") ⟨"POST", ⟨.str "卵", .str "allergy", .undef⟩⟩
        (.success (Json.arr []))).calls = 1 := by
  decide

/-- Claim C3 (amended): the Canvas generation returns 400 without an
upstream call for mode `allergy` with absent or empty (falsy) allergens,
and so does the part_001 generation (when the credential is present,
since its key check precedes the allergens check); the opi and part_002
generations perform no such validation and proceed to the external call
(one upstream attempt, and the answer — 200 on success, 500 on failure —
is never 400). -/
theorem allergy_allergens_validation (req : MenuReq) (key : Option String)
    (o : AttemptOutcome) (outcomes : Nat → AttemptOutcome)
    (hm : req.method = "POST") (hi : canvasTextInvalid req.body.ingredients = false)
    (hmode : req.body.mode = JsVal.str "allergy")
    (hal : req.body.allergens.truthy = false)
    (hk : envTruthy key = true) :
    canvasHandler req outcomes =
      ⟨400, .obj [("error", .str "アレルギー除去モードでは、除去食材 (allergens) の入力は必須です。")], 0, []⟩
    ∧ p1Handler key req o =
      ⟨400, .obj [("error", .str "アレルギー除去モードでは、除去する食材の指定が必要です。")], 0, []⟩
    ∧ (opiHandler key req o).calls = 1
    ∧ (opiHandler key req o).status ≠ 400
    ∧ (p2Handler key req o).calls = 1
    ∧ (p2Handler key req o).status ≠ 400 := by
  obtain ⟨method, i, m, a⟩ := req
  simp only at hm hi hmode hal
  subst hm
  subst hmode
  have hit : i.truthy = true := truthy_of_canvasTextValid i hi
  have hainv : canvasTextInvalid a = true := canvasTextInvalid_of_falsy a hal
  refine ⟨?_, ?_, ?_, ?_, ?_, ?_⟩
  · simp [canvasHandler, hi, hainv, canvasModeValid]
  · simp only [p1Handler]
    have hmt : (JsVal.str "allergy").truthy = true := by decide
    rw [if_neg (by simp), if_neg (by simp [hit, hmt]), if_neg (by simp [hk]),
      if_pos (by simp [hal])]
  · cases o <;> simp [opiHandler, hk, hit]
  · cases o <;> simp [opiHandler, hk, hit]
  · cases o <;> simp [p2Handler, hk, hit]
  · cases o <;> simp [p2Handler, hk, hit]

/-- Concrete instance of `allergy_allergens_validation`: allergy mode
with absent allergens gets 400 from the Canvas handler and, with the
upstream simulated as failing, a non-400 answer after one call from the
opi handler. -/
theorem allergy_allergens_validation_witness :
    (canvasHandler ⟨"POST", ⟨.str "卵", .str "allergy", .undef⟩⟩ (fun _ => .noText)).status = 400
    ∧ (opiHandler (some "key123") ⟨"POST", ⟨.str "卵", .str "allergy", .undef⟩⟩ .noText).calls = 1
    ∧ (opiHandler (some "key123") ⟨"POST", ⟨.str "卵", .str "allergy", .undef⟩⟩ .noText).status ≠ 400 := by
  have h := allergy_allergens_validation ⟨"POST", ⟨.str "卵", .str "allergy", .undef⟩⟩
    (some "key123") .noText (fun _ => .noText) rfl (by decide) rfl rfl rfl
  exact ⟨by rw [h.1], h.2.2.1, h.2.2.2.1⟩

/-- Claim C10: a truthy ingredients value that is Canvas-invalid (a
non-empty all-whitespace string, or a non-string truthy value) is
rejected with 400 and no upstream call by the Canvas generation, while
the opi and part_002 generations (which reject only falsy ingredients)
accept it and proceed to the external call: one upstream attempt is made
and the answer is never 400. -/
theorem ingredients_strictness (i m a : JsVal) (key : Option String)
    (outcomes : Nat → AttemptOutcome) (o : AttemptOutcome)
    (ht : i.truthy = true) (hinv : canvasTextInvalid i = true)
    (hk : envTruthy key = true) :
    canvasHandler ⟨"POST", ⟨i, m, a⟩⟩ outcomes =
      ⟨400, .obj [("error", .str "食材 (ingredients) の入力は必須です。")], 0, []⟩
    ∧ (opiHandler key ⟨"POST", ⟨i, m, a⟩⟩ o).calls = 1
    ∧ (opiHandler key ⟨"POST", ⟨i, m, a⟩⟩ o).status ≠ 400
    ∧ (p2Handler key ⟨"POST", ⟨i, m, a⟩⟩ o).calls = 1
    ∧ (p2Handler key ⟨"POST", ⟨i, m, a⟩⟩ o).status ≠ 400 := by
  refine ⟨?_, ?_, ?_, ?_, ?_⟩
  · simp [canvasHandler, hinv]
  · cases o <;> simp [opiHandler, hk, ht]
  · cases o <;> simp [opiHandler, hk, ht]
  · cases o <;> simp [p2Handler, hk, ht]
  · cases o <;> simp [p2Handler, hk, ht]

/-- Concrete instance of `ingredients_strictness` at the all-whitespace
ingredients string " ": 400 with no call from the Canvas generation,
one upstream call and a non-400 answer from the opi generation. -/
theorem ingredients_strictness_witness :
    (canvasHandler ⟨"POST", ⟨.str " ", .str "normal", .undef⟩⟩ (fun _ => .noText)).status = 400
    ∧ (canvasHandler ⟨"POST", ⟨.str " ", .str "normal", .undef⟩⟩ (fun _ => .noText)).calls = 0
    ∧ (opiHandler (some "key123") ⟨"POST", ⟨.str " ", .str "normal", .undef⟩⟩ .noText).calls = 1
    ∧ (opiHandler (some "key123") ⟨"POST", ⟨.str " ", .str "normal", .undef⟩⟩ .noText).status ≠ 400 := by
  have h := ingredients_strictness (.str " ") (.str "normal") .undef (some "key123")
    (fun _ => .noText) .noText (by decide) (by decide) rfl
  exact ⟨by rw [h.1], by rw [h.1], h.2.1, h.2.2.1⟩
